import Mathlib

/-!
Verification of the OpenPilot ManualControl module (`manualcontrol.c`).

This file gives a shallow embedding of the module's pure decision logic:
channel scaling, input-range validation, connection hysteresis, flight-mode
decoding, the arm/disarm state machine (`processArm`), the receiver-activity
round-robin FSM (`updateRcvrActivity`), and one iteration of the main task
loop (`manualControlTask`) on the transmitter (read-write) path.

C `float` arithmetic is embedded as exact rational arithmetic (`ℚ`); all the
properties proved here concern values (division of small integers, exact
endpoints, comparisons against 0 and ±1/2) on which IEEE single-precision
arithmetic is exact.  Machine integers are embedded as `ℕ`/`ℤ` with explicit
reductions modulo 2^8 / 2^16 / 2^32 where the C code can wrap.
-/

namespace ManualControl

/-! ### Constants from the C sources and the UAVObject definitions

Enum encodings (`ManualControlSettings`, `FlightStatus`, `SystemAlarms`
option lists) come from the shared UAVObject XML definitions that accompany
`manualcontrol.c`; only their relative order/values are used.
-/

/-- `#define CONNECTION_OFFSET 250` — safe band in microseconds. -/
def CONNECTION_OFFSET : ℤ := 250

/-- `#define ARMED_THRESHOLD 0.50f`. -/
def ARMED_THRESHOLD : ℚ := mkRat 1 2

/-- `MANUALCONTROLSETTINGS_CHANNELGROUPS_NONE`: the `ChannelGroups` enum is
`PWM,PPM,DSM (MainPort),DSM (FlexiPort),S.Bus,GCS,OPLink,None`, so `None = 7`. -/
def CHANNELGROUPS_NONE : ℕ := 7

/-- `MANUALCONTROLSETTINGS_FLIGHTMODEPOSITION_NUMELEM`: the settings object
carries 6 flight-mode position slots. -/
def FLIGHTMODEPOSITION_NUMELEM : ℕ := 6

/-- `(uint16_t)PIOS_RCVR_TIMEOUT` — `PIOS_RCVR_TIMEOUT = 0`. -/
def RCVR_TIMEOUT16 : ℕ := 0

/-- `(uint16_t)PIOS_RCVR_INVALID` — `PIOS_RCVR_INVALID = -1` cast to `uint16_t`. -/
def RCVR_INVALID16 : ℕ := 65535

/-- `(uint16_t)PIOS_RCVR_NODRIVER` — `PIOS_RCVR_NODRIVER = -2` cast to `uint16_t`. -/
def RCVR_NODRIVER16 : ℕ := 65534

/-- `SystemAlarms` severity enum: `Uninitialised,OK,Warning,Error,Critical`. -/
def ALARM_WARNING : ℕ := 2

/-- Severity `Error = 3`. -/
def ALARM_ERROR : ℕ := 3

/-- Severity `Critical = 4`. -/
def ALARM_CRITICAL : ℕ := 4

/-- `FlightStatus.Armed` enum: `Disarmed,Arming,Armed`. -/
def ARMED_DISARMED : ℕ := 0

/-- `FLIGHTSTATUS_ARMED_ARMING = 1`. -/
def ARMED_ARMING : ℕ := 1

/-- `FLIGHTSTATUS_ARMED_ARMED = 2`. -/
def ARMED_ARMED : ℕ := 2

/-- `FlightStatus.FlightMode` values used by `okToArm`:
`Manual = 0`, `Stabilized1..3 = 1..3`. -/
def FLIGHTMODE_MANUAL : ℕ := 0

/-- `FLIGHTSTATUS_FLIGHTMODE_STABILIZED1 = 1`. -/
def FLIGHTMODE_STABILIZED1 : ℕ := 1

/-- `FLIGHTSTATUS_FLIGHTMODE_STABILIZED2 = 2`. -/
def FLIGHTMODE_STABILIZED2 : ℕ := 2

/-- `FLIGHTSTATUS_FLIGHTMODE_STABILIZED3 = 3`. -/
def FLIGHTMODE_STABILIZED3 : ℕ := 3

/-- `MANUALCONTROLSETTINGS_FAILSAFEBEHAVIOR_NONE = 0`. -/
def FAILSAFEBEHAVIOR_NONE : ℕ := 0

/-- `portTICK_RATE_MS` comes from the FreeRTOS configuration (1 kHz tick in
the shipped configurations), so one tick is one millisecond.  Every theorem
below states its timing hypotheses through `timeDifferenceMs`, so only the
code's use of the conversion matters, not the numeric scale. -/
def portTICK_RATE_MS : ℕ := 1

/-! ### Basic machine-integer helpers -/

/-- Reduce an integer to the `uint16_t` range (cast semantics). -/
def toUInt16 (z : ℤ) : ℕ := (z % 65536).toNat

/-- Reduce an integer to the `uint8_t` range (cast semantics). -/
def toUInt8 (z : ℤ) : ℕ := (z % 256).toNat

/-- Reduce an integer to the `int16_t` range (wrap-around cast semantics). -/
def toInt16 (z : ℤ) : ℤ := (z + 32768) % 65536 - 32768

/-- C float→integer conversion: truncation toward zero of a rational. -/
def ratTruncZ (q : ℚ) : ℤ := Int.tdiv q.num (q.den : ℤ)

/-- `timeDifferenceMs(start_time, end_time)`: `portTickType` is `uint32_t`,
so the subtraction wraps modulo 2^32 before the tick→ms conversion. -/
def timeDifferenceMs (startTime endTime : ℕ) : ℕ :=
  (((endTime : ℤ) - (startTime : ℤ)) % 4294967296).toNat * portTICK_RATE_MS

/-! ### Channel index and enumerated types -/

/-- Element index into the per-channel arrays of `ManualControlSettings`
(`ChannelGroups`, `ChannelNumber`, `ChannelMin/Neutral/Max`) and of
`ManualControlCommand.Channel`, in UAVObject declaration order. -/
inductive Chan where
  | throttle
  | roll
  | pitch
  | yaw
  | flightMode
  | collective
  | accessory0
  | accessory1
  | accessory2
  deriving DecidableEq, Repr

/-- The 9 channel slots in declaration order (`NUMELEM = 9`). -/
def Chan.all : List Chan :=
  [.throttle, .roll, .pitch, .yaw, .flightMode, .collective,
   .accessory0, .accessory1, .accessory2]

/-- `ManualControlSettings.Arming` option list:
`Always Disarmed, Always Armed, Roll Left, Roll Right, Pitch Forward,
Pitch Aft, Yaw Left, Yaw Right, Accessory 0, Accessory 1, Accessory 2`. -/
inductive Arming where
  | alwaysDisarmed
  | alwaysArmed
  | rollLeft
  | rollRight
  | pitchForward
  | pitchAft
  | yawLeft
  | yawRight
  | accessory0
  | accessory1
  | accessory2
  deriving DecidableEq, Repr

/-- The three accessory-switch arming options (`do NOT check throttle if
disarming via switch` block in `processArm`). -/
def Arming.isAccessory : Arming → Bool
  | .accessory0 | .accessory1 | .accessory2 => true
  | _ => false

/-- The six stick-gesture arming options. -/
def Arming.isStickGesture : Arming → Bool
  | .rollLeft | .rollRight | .pitchForward | .pitchAft | .yawLeft | .yawRight => true
  | _ => false

/-- `ArmState_t` from `manualcontrol.c`. -/
inductive ArmState where
  | disarmed
  | armingManual
  | armed
  | disarmingManual
  | disarmingTimeout
  deriving DecidableEq, Repr

/-! ### Data model: settings, command, alarms -/

/-- The slice of `ManualControlSettingsData` read by the embedded code. -/
structure Settings where
  channelGroups : Chan → ℕ
  channelNumber : Chan → ℕ
  channelMin : Chan → ℤ
  channelMax : Chan → ℤ
  channelNeutral : Chan → ℤ
  arming : Arming
  armingSequenceTime : ℕ
  disarmingSequenceTime : ℕ
  armedTimeout : ℕ
  flightModeNumber : ℕ
  flightModePosition : ℕ → ℕ
  failsafeBehavior : ℕ
  deadband : ℚ

/-- The slice of `ManualControlCommandData` used by the module. -/
structure Cmd where
  roll : ℚ
  pitch : ℚ
  yaw : ℚ
  throttle : ℚ
  collective : ℚ
  channel : Chan → ℕ
  connected : Bool
  flightModeSwitchPosition : ℕ

/-- The slice of `SystemAlarmsData` read by `forcedDisArm` and `okToArm`:
the Guidance alarm is named because `forcedDisArm` tests it; the GPS and
Telemetry alarms are the two slots `okToArm` skips; `others` holds the
severities of every remaining alarm slot. -/
structure Alarms where
  guidance : ℕ
  gps : ℕ
  telemetry : ℕ
  others : List ℕ

/-! ### scaleChannel -/

/-- `scaleChannel(value, max, min, neutral)`: two-sided scaling with
divide-by-zero guards, then clamping to [-1, 1].  All four parameters are
`int16_t`; the divisions are performed in `float`, embedded here as `ℚ`. -/
def scaleChannel (value max min neutral : ℤ) : ℚ :=
  let valueScaled : ℚ :=
    if (max > min ∧ value ≥ neutral) ∨ (min > max ∧ value ≤ neutral) then
      if max ≠ neutral then ((value : ℚ) - neutral) / ((max : ℚ) - neutral) else 0
    else
      if min ≠ neutral then ((value : ℚ) - neutral) / ((neutral : ℚ) - min) else 0
  if valueScaled > 1 then 1 else if valueScaled < -1 then -1 else valueScaled

/-! ### validInputRange -/

/-- `validInputRange(min, max, value)`: swap `min`/`max` if reversed, then
accept iff `value` is within `CONNECTION_OFFSET` of the `[min, max]` band.
`value` is `uint16_t`; the comparisons happen after integer promotion. -/
def validInputRange (min max : ℤ) (value : ℕ) : Bool :=
  let lo := if min > max then max else min
  let hi := if min > max then min else max
  decide ((value : ℤ) ≥ lo - CONNECTION_OFFSET ∧ (value : ℤ) ≤ hi + CONNECTION_OFFSET)

/-! ### Connection hysteresis (manualControlTask main loop) -/

/-- Connection-hysteresis state: `cmd.Connected` plus the two `uint8_t`
counters `connected_count` / `disconnected_count` local to the task. -/
structure Hyst where
  connected : Bool
  cc : ℕ
  dc : ℕ
  deriving DecidableEq, Repr

/-- One execution of the hysteresis block:
`if (valid_input_detected && (++connected_count > 10)) { … } else if
(!valid_input_detected && (++disconnected_count > 10)) { … }`.
The increments are `uint8_t` and only execute on their own side of the
short-circuit. -/
def hysteresisStep (valid : Bool) (h : Hyst) : Hyst :=
  if valid then
    if (h.cc + 1) % 256 > 10 then ⟨true, 0, 0⟩
    else { h with cc := (h.cc + 1) % 256 }
  else
    if (h.dc + 1) % 256 > 10 then ⟨false, 0, 0⟩
    else { h with dc := (h.dc + 1) % 256 }

/-- Fold the hysteresis over a sequence of per-cycle validity flags. -/
def hysteresisRun (l : List Bool) (h : Hyst) : Hyst :=
  l.foldl (fun s v => hysteresisStep v s) h

/-! ### processFlightMode -/

/-- The switch-position computation of `processFlightMode`:
`uint8_t pos = ((int16_t)(flightMode * 256.0f) + 256) * settings->FlightModeNumber >> 9;
if (pos >= settings->FlightModeNumber) pos = settings->FlightModeNumber - 1;`.
The float→`int16_t` conversion truncates toward zero; `>> 9` on the (possibly
negative) `int` is an arithmetic shift, i.e. floor division by 512. -/
def processFlightModePos (flightModeNumber : ℕ) (flightMode : ℚ) : ℕ :=
  let pos : ℕ :=
    toUInt8 (Int.fdiv ((toInt16 (ratTruncZ (flightMode * 256)) + 256) * (flightModeNumber : ℤ)) 512)
  if pos ≥ flightModeNumber then toUInt8 ((flightModeNumber : ℤ) - 1) else pos

/-- `processFlightMode(settings, flightMode, cmd)`: store the decoded switch
position in the command and return the new `FlightStatus.FlightMode`
(`FlightModePosition[pos]`; the object is re-published only when the mode
changed, which does not affect the resulting value). -/
def processFlightMode (s : Settings) (flightMode : ℚ) (cmd : Cmd) (_fsFlightMode : ℕ) :
    Cmd × ℕ :=
  let pos := processFlightModePos s.flightModeNumber flightMode
  ({ cmd with flightModeSwitchPosition := pos }, s.flightModePosition pos)

/-! ### Arming: forcedDisArm, okToArm, setArmedIfChanged, processArm -/

/-- `forcedDisArm()`: true iff the Guidance alarm is at Critical severity. -/
def forcedDisArm (a : Alarms) : Bool :=
  a.guidance = ALARM_CRITICAL

/-- `okToArm()`: every alarm slot other than GPS and Telemetry must be below
Error severity, and the current flight mode must be Manual or Stabilized1-3.
(`okToArm` first calls the external `configuration_check()`, which may update
the alarm object; the `Alarms` argument is the store's content after that
call.) -/
def okToArm (a : Alarms) (flightMode : ℕ) : Bool :=
  a.guidance < ALARM_ERROR && a.others.all (fun sev => sev < ALARM_ERROR) &&
    (flightMode = FLIGHTMODE_MANUAL || flightMode = FLIGHTMODE_STABILIZED1 ||
     flightMode = FLIGHTMODE_STABILIZED2 || flightMode = FLIGHTMODE_STABILIZED3)

/-- The mutable state touched by `processArm`: the static `armState` and
`armedDisarmStart` variables, and the published `FlightStatus.Armed`. -/
structure ArmSt where
  armState : ArmState
  armedDisarmStart : ℕ
  armed : ℕ
  deriving DecidableEq, Repr

/-- `setArmedIfChanged(val)`: publish `FlightStatus.Armed = val` (the
"if changed" guard only suppresses a redundant publish of an equal value). -/
def setArmedIfChanged (val : ℕ) (st : ArmSt) : ArmSt :=
  { st with armed := val }

/-- `armingInputLevel` computed from the configured gesture (the arming
switch cases of `processArm`); `armSwitch` is the `int8_t` accessory switch
direction.  The C code's value-preserving `1.0f *` / `-1.0f *` factors are
folded into identity/negation.  Configurations not listed in the `switch`
leave the initial 0. -/
def armingInputLevel (s : Settings) (cmd : Cmd) (armSwitch : ℤ) : ℚ :=
  match s.arming with
  | .rollLeft => cmd.roll
  | .rollRight => -cmd.roll
  | .pitchForward => cmd.pitch
  | .pitchAft => -cmd.pitch
  | .yawLeft => cmd.yaw
  | .yawRight => -cmd.yaw
  | .accessory0 | .accessory1 | .accessory2 => -(armSwitch : ℚ)
  | _ => 0

/-- `processArm(cmd, settings, armSwitch)`.  `alarms` and `flightMode` stand
for the alarm and flight-status objects read through `forcedDisArm`/`okToArm`;
`lastSysTime` is the task's current tick. -/
def processArm (cmd : Cmd) (s : Settings) (armSwitch : ℤ) (alarms : Alarms)
    (flightMode : ℕ) (lastSysTime : ℕ) (st : ArmSt) : ArmSt :=
  let lowThrottle : Bool := cmd.throttle < 0
  -- do NOT check throttle if disarming via switch, must be instant
  let lowThrottle : Bool := if s.arming.isAccessory ∧ armSwitch < 0 then true else lowThrottle
  if forcedDisArm alarms then
    -- forced disarm due to an error condition: publish Disarmed and return
    setArmedIfChanged ARMED_DISARMED st
  else if s.arming = .alwaysDisarmed then
    setArmedIfChanged ARMED_DISARMED st
  else
    let lowThrottle : Bool := if cmd.connected = false then true else lowThrottle
    if ¬ lowThrottle then
      -- the throttle is not low: in case we were arming or disarming, abort
      match st.armState with
      | .disarmingManual | .disarmingTimeout => { st with armState := .armed }
      | .armingManual => { st with armState := .disarmed }
      | _ => st
    else if s.arming = .alwaysArmed then
      setArmedIfChanged ARMED_ARMED st
    else
      let level := armingInputLevel s cmd armSwitch
      let manualArm : Bool := level ≤ -ARMED_THRESHOLD
      let manualDisarm : Bool := !(decide (level ≤ -ARMED_THRESHOLD)) && decide (level ≥ ARMED_THRESHOLD)
      match st.armState with
      | .disarmed =>
        let st := setArmedIfChanged ARMED_DISARMED st
        if manualArm ∧ okToArm alarms flightMode then
          { st with armedDisarmStart := lastSysTime, armState := .armingManual }
        else st
      | .armingManual =>
        let st := setArmedIfChanged ARMED_ARMING st
        if manualArm ∧ timeDifferenceMs st.armedDisarmStart lastSysTime > s.armingSequenceTime then
          { st with armState := .armed }
        else if ¬ manualArm then
          { st with armState := .disarmed }
        else st
      | .armed =>
        -- throttle is low: go immediately to disarming-by-timeout
        let st := { st with armedDisarmStart := lastSysTime, armState := .disarmingTimeout }
        setArmedIfChanged ARMED_ARMED st
      | .disarmingTimeout =>
        let st :=
          if s.armedTimeout ≠ 0 ∧ timeDifferenceMs st.armedDisarmStart lastSysTime > s.armedTimeout then
            { st with armState := .disarmed }
          else st
        if manualDisarm then
          { st with armedDisarmStart := lastSysTime, armState := .disarmingManual }
        else st
      | .disarmingManual =>
        if manualDisarm ∧ timeDifferenceMs st.armedDisarmStart lastSysTime > s.disarmingSequenceTime then
          { st with armState := .disarmed }
        else if ¬ manualDisarm then
          { st with armState := .armed }
        else st

/-- One per-cycle input to the arming state machine, for run-level theorems. -/
structure ArmIn where
  cmd : Cmd
  armSwitch : ℤ
  alarms : Alarms
  flightMode : ℕ
  t : ℕ

/-- A run of `processArm` steps under a fixed configuration. -/
def armRun (s : Settings) (l : List ArmIn) (st : ArmSt) : ArmSt :=
  l.foldl (fun acc i => processArm i.cmd s i.armSwitch i.alarms i.flightMode i.t acc) st

/-! ### Receiver-activity round-robin FSM -/

/-- External inputs to the receiver-activity FSM: `bound g` models
`pios_rcvr_group_map[g] != 0`, and `read g ch` models
`PIOS_RCVR_Read(pios_rcvr_group_map[g], ch)` stored into a `uint16_t`. -/
structure RcvrEnv where
  bound : ℕ → Bool
  read : ℕ → ℕ → ℕ

/-- `struct rcvr_activity_fsm`: current group, the 12 previous samples, and
`sample_count` (0 = no baseline taken yet). -/
structure RcvrFsm where
  group : ℕ
  prev : List ℕ
  sampleCount : ℕ
  deriving DecidableEq, Repr

/-- `RCVR_ACTIVITY_MONITOR_CHANNELS_PER_GROUP`. -/
def RCVR_CHANNELS_PER_GROUP : ℕ := 12

/-- `RCVR_ACTIVITY_MONITOR_MIN_RANGE`. -/
def RCVR_MIN_RANGE : ℕ := 10

/-- The FSM part of `resetRcvrActivity` (the function also clears the
published `ReceiverActivity` object, an external store write). -/
def resetRcvrActivity (fsm : RcvrFsm) : RcvrFsm :=
  { fsm with group := 0, sampleCount := 0 }

/-- `updateRcvrActivitySample`: read channels 1..12 of a group (channels are
1-indexed; slot `i` holds channel `i+1`). -/
def updateRcvrActivitySample (env : RcvrEnv) (group : ℕ) : List ℕ :=
  (List.range RCVR_CHANNELS_PER_GROUP).map (fun i => env.read group (i + 1) % 65536)

/-- The absolute `uint16_t` delta of `updateRcvrActivityCompare`. -/
def rcvrDelta (curr prev : ℕ) : ℕ :=
  if curr > prev then curr - prev else prev - curr

/-- `updateRcvrActivityCompare`: true iff some channel's absolute delta
against the baseline exceeds `RCVR_ACTIVITY_MONITOR_MIN_RANGE` (the function
also publishes the active group/channel, an external store write). -/
def updateRcvrActivityCompare (env : RcvrEnv) (fsm : RcvrFsm) : Bool :=
  (List.range RCVR_CHANNELS_PER_GROUP).any
    (fun i => rcvrDelta (env.read fsm.group (i + 1) % 65536) (fsm.prev.getD i 0) > RCVR_MIN_RANGE)

/-- The bounded group-advance loop at `group_completed`: move to the next
group (wrapping at `CHANNELGROUPS_NONE`), and on the first bound group take
an immediate baseline sample and stop; at most `CHANNELGROUPS_NONE`
iterations. -/
def rcvrAdvance (env : RcvrEnv) : ℕ → RcvrFsm → RcvrFsm
  | 0, fsm => fsm
  | fuel + 1, fsm =>
    let g := if fsm.group + 1 ≥ CHANNELGROUPS_NONE then 0 else fsm.group + 1
    if env.bound g then
      { group := g, prev := updateRcvrActivitySample env g, sampleCount := fsm.sampleCount + 1 }
    else
      rcvrAdvance env fuel { fsm with group := g }

/-- `updateRcvrActivity(fsm)`: returns the `activity_updated` flag and the
new FSM state. -/
def updateRcvrActivity (env : RcvrEnv) (fsm : RcvrFsm) : Bool × RcvrFsm :=
  let fsm := if fsm.group ≥ CHANNELGROUPS_NONE then resetRcvrActivity fsm else fsm
  if ¬ env.bound fsm.group then
    -- unbound group: skip to group_completed
    (false, rcvrAdvance env CHANNELGROUPS_NONE { fsm with sampleCount := 0 })
  else if fsm.sampleCount = 0 then
    -- take a baseline sample of each channel in this group and return
    (false, { fsm with
        prev := updateRcvrActivitySample env fsm.group,
        sampleCount := fsm.sampleCount + 1 })
  else
    let activityUpdated := updateRcvrActivityCompare env fsm
    (activityUpdated, rcvrAdvance env CHANNELGROUPS_NONE { fsm with sampleCount := 0 })

/-- Cyclic successor used by the advance loop (its value for `g < 7`). -/
def nextGroup (g : ℕ) : ℕ := (g + 1) % CHANNELGROUPS_NONE

/-! ### One iteration of the manualControlTask main loop (transmitter path)

This models the body of the `while (1)` loop for a cycle on which
`ManualControlCommandReadOnly()` is false (transmitter control).  The
receiver-activity monitor at the top of the loop is modeled separately by
`updateRcvrActivity` (it shares no state with the rest of the cycle).
`USE_INPUT_LPF` is not defined in the modeled build, so the low-pass-filter
blocks are absent.
-/

/-- `applyDeadband(value, deadband)`. -/
def applyDeadband (value deadband : ℚ) : ℚ :=
  if |value| < deadband then 0
  else if value > 0 then value - deadband
  else value + deadband

/-- External inputs to one cycle: `rcvrRead g c` models
`PIOS_RCVR_Read(pios_rcvr_group_map[g], c)` (already including the sentinel
outcomes, before the `uint16_t` store), `alarms` the system-alarm store, and
`accessorySetFails i` a nonzero return from `AccessoryDesiredInstSet(i, …)`. -/
structure CycleEnv where
  rcvrRead : ℕ → ℕ → ℕ
  alarms : Alarms
  accessorySetFails : ℕ → Bool

/-- What the cycle did to the ManualControl alarm. -/
inductive AlarmAction where
  | untouched
  | cleared
  | set (sev : ℕ)
  deriving DecidableEq, Repr

/-- State carried across loop iterations: the task-local `cmd` and
`scaledChannel` arrays, the two hysteresis counters, the arming state, and
`FlightStatus.FlightMode`. -/
structure CycleSt where
  cmd : Cmd
  scaledChannel : Chan → ℚ
  cc : ℕ
  dc : ℕ
  arm : ArmSt
  fsFlightMode : ℕ

/-- Result of one cycle: the new state, the ManualControl alarm action, the
command published by `ManualControlCommandSet` (if any), and whether control
reached the per-flight-mode dispatch switch at the bottom of the loop. -/
structure CycleOut where
  st : CycleSt
  alarm : AlarmAction
  published : Option Cmd
  dispatchReached : Bool

/-- The channel-read loop: an unmapped group yields `PIOS_RCVR_INVALID`
cast to `uint16_t`; otherwise the receiver is read and the result stored
into the `uint16_t` `cmd.Channel[n]`. -/
def readChannels (env : CycleEnv) (s : Settings) : Chan → ℕ := fun n =>
  if s.channelGroups n ≥ CHANNELGROUPS_NONE then RCVR_INVALID16
  else env.rcvrRead (s.channelGroups n) (s.channelNumber n) % 65536

/-- The configuration-consistency check of `manualControlTask` ("Check
settings, if error raise alarm"), over the settings and the channel values
just read into `cmd.Channel`. -/
def configCheckFails (s : Settings) (ch : Chan → ℕ) : Bool :=
  decide (s.channelGroups .roll ≥ CHANNELGROUPS_NONE
    ∨ s.channelGroups .pitch ≥ CHANNELGROUPS_NONE
    ∨ s.channelGroups .yaw ≥ CHANNELGROUPS_NONE
    ∨ s.channelGroups .throttle ≥ CHANNELGROUPS_NONE
    ∨ ch .roll = RCVR_INVALID16 ∨ ch .pitch = RCVR_INVALID16
    ∨ ch .yaw = RCVR_INVALID16 ∨ ch .throttle = RCVR_INVALID16
    ∨ ch .roll = RCVR_NODRIVER16 ∨ ch .pitch = RCVR_NODRIVER16
    ∨ ch .yaw = RCVR_NODRIVER16 ∨ ch .throttle = RCVR_NODRIVER16
    ∨ s.flightModeNumber < 1 ∨ s.flightModeNumber > FLIGHTMODEPOSITION_NUMELEM
    ∨ (s.flightModeNumber > 1
       ∧ (s.channelGroups .flightMode ≥ CHANNELGROUPS_NONE
          ∨ ch .flightMode = RCVR_INVALID16 ∨ ch .flightMode = RCVR_NODRIVER16)))

/-- The accessory-derived `armSwitch` of the valid-input branch: each bound
accessory configured as the arming source overrides the switch direction
when its scaled value passes `ARMED_THRESHOLD`. -/
def accessoryArmSwitch (s : Settings) (scaled : Chan → ℚ) : ℤ :=
  let step := fun (sw : ℤ) (grp : Chan) (cfg : Arming) =>
    if s.channelGroups grp ≠ CHANNELGROUPS_NONE ∧ s.arming = cfg then
      if scaled grp > ARMED_THRESHOLD then 1
      else if scaled grp < -ARMED_THRESHOLD then -1
      else sw
    else sw
  step (step (step 0 .accessory0 .accessory0) .accessory1 .accessory1) .accessory2 .accessory2

/-- True when some bound accessory's `AccessoryDesiredInstSet` failed this
cycle (each failure raises a Warning on the ManualControl alarm). -/
def accessoryWarn (env : CycleEnv) (s : Settings) : Bool :=
  (s.channelGroups .accessory0 ≠ CHANNELGROUPS_NONE && env.accessorySetFails 0) ||
  (s.channelGroups .accessory1 ≠ CHANNELGROUPS_NONE && env.accessorySetFails 1) ||
  (s.channelGroups .accessory2 ≠ CHANNELGROUPS_NONE && env.accessorySetFails 2)

/-- This cycle's `valid_input_detected` after the range checks: no channel
timed out, and the four primary axes are inside their extended pulse bands. -/
def cycleValid (env : CycleEnv) (s : Settings) : Bool :=
  let ch := readChannels env s
  Chan.all.all (fun n => ch n ≠ RCVR_TIMEOUT16)
    && validInputRange (s.channelMin .throttle) (s.channelMax .throttle) (ch .throttle)
    && validInputRange (s.channelMin .roll) (s.channelMax .roll) (ch .roll)
    && validInputRange (s.channelMin .yaw) (s.channelMax .yaw) (ch .yaw)
    && validInputRange (s.channelMin .pitch) (s.channelMax .pitch) (ch .pitch)

/-- One iteration of the `manualControlTask` loop body on the
transmitter-controlled (not `ManualControlCommandReadOnly`) path. -/
def cycleStep (env : CycleEnv) (s : Settings) (lastSysTime : ℕ) (st : CycleSt) : CycleOut :=
  let ch := readChannels env s
  -- a timed-out channel invalidates this cycle's input and keeps the old
  -- scaled value; otherwise the (int16_t-cast) reading is scaled
  let scaled : Chan → ℚ := fun n =>
    if ch n = RCVR_TIMEOUT16 then st.scaledChannel n
    else scaleChannel (toInt16 (ch n)) (s.channelMax n) (s.channelMin n) (s.channelNeutral n)
  let cmd1 : Cmd := { st.cmd with channel := ch }
  if configCheckFails s ch then
    -- critical alarm, drop connection, publish, immediately disarm, skip cycle
    let cmd2 := { cmd1 with connected := false }
    let st2 := { st with
      cmd := cmd2,
      scaledChannel := scaled,
      arm := setArmedIfChanged ARMED_DISARMED st.arm }
    { st := st2, alarm := .set ALARM_CRITICAL, published := some cmd2, dispatchReached := false }
  else
    -- decide if we have valid manual input or not
    let valid : Bool := cycleValid env s
    let hyst := hysteresisStep valid ⟨cmd1.connected, st.cc, st.dc⟩
    let cmd2 := { cmd1 with connected := hyst.connected }
    if cmd2.connected = false then
      -- failsafe: neutral sticks, minimum throttle, optional failsafe mode
      let cmd3 := { cmd2 with throttle := -1, roll := 0, yaw := 0, pitch := 0, collective := 0 }
      let cmd4 := if s.failsafeBehavior ≠ FAILSAFEBEHAVIOR_NONE then
          { cmd3 with flightModeSwitchPosition := s.failsafeBehavior - 1 } else cmd3
      let fsMode := if s.failsafeBehavior ≠ FAILSAFEBEHAVIOR_NONE then
          s.flightModePosition (s.failsafeBehavior - 1) else st.fsFlightMode
      let arm2 := processArm cmd4 s 0 env.alarms fsMode lastSysTime st.arm
      let st2 := { st with
        cmd := cmd4,
        scaledChannel := scaled,
        cc := hyst.cc,
        dc := hyst.dc,
        arm := arm2,
        fsFlightMode := fsMode }
      { st := st2, alarm := .set ALARM_WARNING, published := some cmd4, dispatchReached := true }
    else if valid then
      -- scale channels into the command, deadband, collective, accessories,
      -- flight-mode decode
      let cmd3 := { cmd2 with
        roll := scaled .roll,
        pitch := scaled .pitch,
        yaw := scaled .yaw,
        throttle := scaled .throttle }
      let flightModeVal := scaled .flightMode
      let cmd4 := if s.deadband > 0 then
          { cmd3 with
            roll := applyDeadband cmd3.roll s.deadband,
            pitch := applyDeadband cmd3.pitch s.deadband,
            yaw := applyDeadband cmd3.yaw s.deadband } else cmd3
      let cmd5 := if ch .collective ≠ RCVR_INVALID16 ∧ ch .collective ≠ RCVR_NODRIVER16
                     ∧ ch .collective ≠ RCVR_TIMEOUT16 then
          { cmd4 with collective := scaled .collective } else cmd4
      let armSwitch := accessoryArmSwitch s scaled
      let fm := processFlightMode s flightModeVal cmd5 st.fsFlightMode
      let arm2 := processArm fm.1 s armSwitch env.alarms fm.2 lastSysTime st.arm
      let st2 := { st with
        cmd := fm.1,
        scaledChannel := scaled,
        cc := hyst.cc,
        dc := hyst.dc,
        arm := arm2,
        fsFlightMode := fm.2 }
      { st := st2, alarm := if accessoryWarn env s then .set ALARM_WARNING else .cleared,
        published := some fm.1, dispatchReached := true }
    else
      -- connected but this cycle's input invalid: only arming is processed
      let arm2 := processArm cmd2 s 0 env.alarms st.fsFlightMode lastSysTime st.arm
      let st2 := { st with
        cmd := cmd2,
        scaledChannel := scaled,
        cc := hyst.cc,
        dc := hyst.dc,
        arm := arm2 }
      { st := st2, alarm := .untouched, published := some cmd2, dispatchReached := true }

/-! ### Concrete fixtures used by the closed witness/counterexample theorems -/

/-- A neutral command fixture. -/
def cmd0 : Cmd :=
  { roll := 0, pitch := 0, yaw := 0, throttle := 0, collective := 0,
    channel := fun _ => 1500, connected := true, flightModeSwitchPosition := 0 }

/-- A consistent settings fixture: all groups PWM, 1000/1500/2000 pulse
bands, stick arming on roll-left, three flight modes, failsafe slot 1. -/
def settings0 : Settings :=
  { channelGroups := fun _ => 0, channelNumber := fun _ => 1,
    channelMin := fun _ => 1000, channelMax := fun _ => 2000,
    channelNeutral := fun _ => 1500, arming := .rollLeft,
    armingSequenceTime := 1000, disarmingSequenceTime := 1000,
    armedTimeout := 30000, flightModeNumber := 3,
    flightModePosition := fun i => i, failsafeBehavior := 1, deadband := 0 }

/-- An alarm store with every slot at OK severity. -/
def alarmsOk : Alarms := { guidance := 1, gps := 1, telemetry := 1, others := [1, 1, 1] }

/-- An alarm store whose Guidance alarm is Critical. -/
def alarmsGuidanceCritical : Alarms :=
  { guidance := ALARM_CRITICAL, gps := 1, telemetry := 1, others := [1, 1, 1] }

/-- A cycle environment with all receivers reading 1500 µs and healthy
accessory publishes. -/
def env0 : CycleEnv :=
  { rcvrRead := fun _ _ => 1500, alarms := alarmsOk, accessorySetFails := fun _ => false }

/-- A cycle state fixture: disarmed, counters at zero, command disconnected. -/
def cycleSt0 : CycleSt :=
  { cmd := { cmd0 with connected := false }, scaledChannel := fun _ => 0,
    cc := 0, dc := 0, arm := { armState := .disarmed, armedDisarmStart := 0, armed := 0 },
    fsFlightMode := 0 }

/-- An inconsistent settings fixture: `FlightModeNumber = 0` is outside the
valid 1..6 range, so the configuration check fails. -/
def settingsBad : Settings := { settings0 with flightModeNumber := 0 }

/-- An armed arming-state fixture. -/
def armStArmed : ArmSt := ⟨.armed, 0, ARMED_ARMED⟩

/-- An in-progress arming-gesture state fixture (timer started at tick 100). -/
def armStArmingManual : ArmSt := ⟨.armingManual, 100, ARMED_ARMING⟩

/-- A command holding the roll-left arm gesture with low throttle. -/
def cmdArmHold : Cmd := { cmd0 with roll := -1, throttle := -1 }

/-- A command with the gesture released and throttle still low. -/
def cmdArmRelease : Cmd := { cmd0 with roll := 0, throttle := -1 }

/-- Gesture held at tick 200 (100 ms into the sequence). -/
def armInHold1 : ArmIn := ⟨cmdArmHold, 0, alarmsOk, 0, 200⟩

/-- Gesture held at tick 300 (200 ms into the sequence). -/
def armInHold2 : ArmIn := ⟨cmdArmHold, 0, alarmsOk, 0, 300⟩

/-- Gesture released at tick 400, before the 1000 ms sequence time. -/
def armInRelease : ArmIn := ⟨cmdArmRelease, 0, alarmsOk, 0, 400⟩

/-- A receiver environment where only group 2 is bound and channel 1 of
group 2 reads 1600 µs while everything else reads 1500 µs. -/
def envAct : RcvrEnv :=
  { bound := fun g => g = 2,
    read := fun g c => if g = 2 ∧ c = 1 then 1600 else 1500 }

/-- An activity FSM on group 2 holding a 1500 µs baseline. -/
def fsmBase : RcvrFsm := ⟨2, List.replicate 12 1500, 1⟩

/-- An activity FSM on group 2 with no baseline taken yet. -/
def fsmFresh : RcvrFsm := ⟨2, List.replicate 12 0, 0⟩

/-! ## Theorems -/

/-- Truncation of an integer-valued rational is that integer. -/
theorem ratTruncZ_intCast (n : ℤ) : ratTruncZ ((n : ℚ)) = n := by
  simp [ratTruncZ]

/-- C10: `validInputRange` accepts a value iff it lies between the lesser of
min and max minus `CONNECTION_OFFSET` and the greater of min and max plus
`CONNECTION_OFFSET` (inclusive); swapping the min and max arguments never
changes the result; and any value strictly outside that extended band — such
as a receiver sentinel far from the configured pulse range — is rejected. -/
theorem C10_validInputRange_band (mn mx : ℤ) (value : ℕ) :
    (validInputRange mn mx value = true ↔
      min mn mx - CONNECTION_OFFSET ≤ (value : ℤ) ∧
        (value : ℤ) ≤ max mn mx + CONNECTION_OFFSET)
    ∧ validInputRange mn mx value = validInputRange mx mn value
    ∧ (((value : ℤ) < min mn mx - CONNECTION_OFFSET ∨
        max mn mx + CONNECTION_OFFSET < (value : ℤ)) →
        validInputRange mn mx value = false) := by
  refine ⟨?_, ?_, ?_⟩
  · simp only [validInputRange, CONNECTION_OFFSET, decide_eq_true_eq]
    split_ifs <;> omega
  · simp only [validInputRange, CONNECTION_OFFSET, decide_eq_decide]
    split_ifs <;> omega
  · intro h
    simp only [CONNECTION_OFFSET] at h
    simp only [validInputRange, CONNECTION_OFFSET, decide_eq_false_iff_not]
    split_ifs <;> omega

/-- C10 witness: the timeout sentinel (0) is more than `CONNECTION_OFFSET`
below a 1000–2000 µs band and is rejected. -/
theorem C10_witness :
    ((RCVR_TIMEOUT16 : ℤ) < min 1000 2000 - CONNECTION_OFFSET ∨
      max 1000 2000 + CONNECTION_OFFSET < (RCVR_TIMEOUT16 : ℤ))
    ∧ validInputRange 1000 2000 RCVR_TIMEOUT16 = false :=
  ⟨Or.inl (by decide),
   (C10_validInputRange_band 1000 2000 RCVR_TIMEOUT16).2.2 (Or.inl (by decide))⟩

/-- C2 counterexample: after 10 valid samples a single invalid sample leaves
`connected_count` at 10 (it is not reset), so one further valid sample — not
11 consecutive ones — flips the status to Connected. -/
theorem C2_counterexample :
    (hysteresisRun (List.replicate 10 true ++ [false]) ⟨false, 0, 0⟩).cc = 10
    ∧ (hysteresisRun (List.replicate 10 true ++ [false, true]) ⟨false, 0, 0⟩).connected = true := by
  exact ⟨rfl, rfl⟩

/-- C2 (amended): starting from Disconnected with zeroed counters, k ≤ 10
consecutive valid samples leave the status Disconnected with the counter at
k, and the 11th consecutive valid sample flips it to Connected; a single
invalid sample does not reset the valid-sample counter — it leaves it (and
the status) unchanged and merely increments the invalid counter. -/
theorem C2_hysteresis_amended (k : ℕ) (h : Hyst) :
    (k ≤ 10 → hysteresisRun (List.replicate k true) ⟨false, 0, 0⟩ = ⟨false, k, 0⟩)
    ∧ (hysteresisRun (List.replicate 11 true) ⟨false, 0, 0⟩).connected = true
    ∧ (h.dc ≤ 9 → hysteresisStep false h = ⟨h.connected, h.cc, h.dc + 1⟩) := by
  refine ⟨?_, by decide, ?_⟩
  · intro hk
    interval_cases k <;> rfl
  · intro hdc
    have h1 : (h.dc + 1) % 256 = h.dc + 1 := Nat.mod_eq_of_lt (by omega)
    simp only [hysteresisStep, Bool.false_eq_true, if_false, h1]
    rw [if_neg (by omega)]

/-- C2 witness: 10 valid samples reach counter 10 while still Disconnected,
and an invalid sample there keeps the counter at 10. -/
theorem C2_witness :
    ((10 : ℕ) ≤ 10 ∧ hysteresisRun (List.replicate 10 true) ⟨false, 0, 0⟩ = ⟨false, 10, 0⟩)
    ∧ ((0 : ℕ) ≤ 9 ∧ hysteresisStep false ⟨false, 10, 0⟩ = ⟨false, 10, 1⟩) :=
  ⟨⟨by decide, (C2_hysteresis_amended 10 ⟨false, 10, 0⟩).1 (by decide)⟩,
   ⟨by decide, (C2_hysteresis_amended 10 ⟨false, 10, 0⟩).2.2 (by decide)⟩⟩

/-- The final clamp of `scaleChannel` keeps any value inside [-1, 1]. -/
theorem scaleClamp_bounds (S : ℚ) :
    -1 ≤ (if S > 1 then (1 : ℚ) else if S < -1 then -1 else S)
    ∧ (if S > 1 then (1 : ℚ) else if S < -1 then -1 else S) ≤ 1 := by
  split_ifs with h1 h2
  · norm_num
  · norm_num
  · constructor <;> linarith [not_lt.mp h1, not_lt.mp h2]

/-- C3 counterexample: with min = 1000 and max = neutral = 2000 the code
returns `scaleChannel(max, max, min, neutral) = 0`, not 1.0 as the claim
asserts for every integer configuration. -/
theorem C3_counterexample :
    scaleChannel 2000 2000 1000 2000 = 0 ∧ scaleChannel 2000 2000 1000 2000 ≠ 1 := by
  constructor <;> norm_num [scaleChannel]

/-- C3 (amended): `scaleChannel(neutral) = 0` for every configuration; when
the neutral point lies strictly between min and max (in either orientation)
`scaleChannel(max) = 1` and `scaleChannel(min) = -1`; the result is always
within [-1, 1] for every integer sample, including samples outside
[min, max]; and on a side whose span is zero (`max == neutral` on the
increasing side, `min == neutral` on the decreasing side) the
divide-by-zero guard returns 0. -/
theorem C3_scaleChannel_amended (mn mx nt v : ℤ) :
    scaleChannel nt mx mn nt = 0
    ∧ (((mn < nt ∧ nt < mx) ∨ (mx < nt ∧ nt < mn)) →
        scaleChannel mx mx mn nt = 1 ∧ scaleChannel mn mx mn nt = -1)
    ∧ -1 ≤ scaleChannel v mx mn nt
    ∧ scaleChannel v mx mn nt ≤ 1
    ∧ ((mx = nt ∧ ((mx > mn ∧ v ≥ nt) ∨ (mn > mx ∧ v ≤ nt))) →
        scaleChannel v mx mn nt = 0)
    ∧ ((mn = nt ∧ ¬ ((mx > mn ∧ v ≥ nt) ∨ (mn > mx ∧ v ≤ nt))) →
        scaleChannel v mx mn nt = 0) := by
  refine ⟨?_, ?_, ?_, ?_, ?_, ?_⟩
  · simp only [scaleChannel, sub_self, zero_div, ite_self]
    norm_num
  · rintro (⟨h1, h2⟩ | ⟨h1, h2⟩)
    · have hne : ((mx : ℚ) - nt) ≠ 0 :=
        sub_ne_zero.mpr (by exact_mod_cast ne_of_gt h2)
      have hne2 : ((nt : ℚ) - mn) ≠ 0 :=
        sub_ne_zero.mpr (by exact_mod_cast ne_of_gt h1)
      constructor
      · simp only [scaleChannel]
        rw [if_pos (Or.inl ⟨lt_trans h1 h2, le_of_lt h2⟩), if_pos (ne_of_gt h2),
          div_self hne]
        norm_num
      · have hc : ¬ ((mx > mn ∧ mn ≥ nt) ∨ (mn > mx ∧ mn ≤ nt)) := by omega
        simp only [scaleChannel]
        rw [if_neg hc, if_pos (ne_of_lt h1),
          show ((mn : ℚ) - nt) = -((nt : ℚ) - mn) by ring, neg_div, div_self hne2]
        norm_num
    · have hne : ((mx : ℚ) - nt) ≠ 0 :=
        sub_ne_zero.mpr (by exact_mod_cast ne_of_lt h1)
      have hne2 : ((nt : ℚ) - mn) ≠ 0 :=
        sub_ne_zero.mpr (by exact_mod_cast ne_of_lt h2)
      constructor
      · simp only [scaleChannel]
        rw [if_pos (Or.inr ⟨lt_trans h1 h2, le_of_lt h1⟩), if_pos (ne_of_lt h1),
          div_self hne]
        norm_num
      · have hc : ¬ ((mx > mn ∧ mn ≥ nt) ∨ (mn > mx ∧ mn ≤ nt)) := by omega
        simp only [scaleChannel]
        rw [if_neg hc, if_pos (ne_of_gt h2),
          show ((mn : ℚ) - nt) = -((nt : ℚ) - mn) by ring, neg_div, div_self hne2]
        norm_num
  · simp only [scaleChannel]
    exact (scaleClamp_bounds _).1
  · simp only [scaleChannel]
    exact (scaleClamp_bounds _).2
  · rintro ⟨hmx, hside⟩
    subst hmx
    simp only [scaleChannel]
    rw [if_pos hside]
    norm_num
  · rintro ⟨hmn, hside⟩
    subst hmn
    simp only [scaleChannel]
    rw [if_neg hside]
    norm_num

/-- C3 witness: with the 1000/1500/2000 configuration the endpoints scale to
±1, neutral to 0, and an out-of-range 2600 µs sample is clamped to 1. -/
theorem C3_witness :
    (((1000 : ℤ) < 1500 ∧ (1500 : ℤ) < 2000) ∨ ((2000 : ℤ) < 1500 ∧ (1500 : ℤ) < 1000))
    ∧ scaleChannel 2000 2000 1000 1500 = 1
    ∧ scaleChannel 1000 2000 1000 1500 = -1
    ∧ scaleChannel 2600 2000 1000 1500 ≤ 1 :=
  ⟨Or.inl ⟨by decide, by decide⟩,
   ((C3_scaleChannel_amended 1000 2000 1500 2600).2.1 (Or.inl ⟨by decide, by decide⟩)).1,
   ((C3_scaleChannel_amended 1000 2000 1500 2600).2.1 (Or.inl ⟨by decide, by decide⟩)).2,
   (C3_scaleChannel_amended 1000 2000 1500 2600).2.2.2.1⟩

/-- C4: the flight-mode switch decoder is the deterministic bucket function
`((int16(value·256) + 256) · N) >> 9` clamped to at most N−1: its output
never exceeds N−1, it maps −1.0 to bucket 0 and 1.0 to bucket N−1 for every
configured N in 1..6, and for N = 3 it maps 0.0 to bucket 1. -/
theorem C4_flightMode_buckets (N : ℕ) (h1 : 1 ≤ N) (h2 : N ≤ FLIGHTMODEPOSITION_NUMELEM) :
    (∀ v : ℚ, processFlightModePos N v ≤ N - 1)
    ∧ processFlightModePos N (-1) = 0
    ∧ processFlightModePos N 1 = N - 1
    ∧ (N = 3 → processFlightModePos N 0 = 1) := by
  simp only [FLIGHTMODEPOSITION_NUMELEM] at h2
  have e1 : ((-1 : ℚ) * 256) = ((-256 : ℤ) : ℚ) := by norm_num
  have e2 : ((1 : ℚ) * 256) = ((256 : ℤ) : ℚ) := by norm_num
  have e3 : ((0 : ℚ) * 256) = ((0 : ℤ) : ℚ) := by norm_num
  refine ⟨?_, ?_, ?_, ?_⟩
  · intro v
    simp only [processFlightModePos]
    split_ifs with hge
    · interval_cases N <;> decide
    · omega
  · simp only [processFlightModePos, e1, ratTruncZ_intCast]
    interval_cases N <;> decide
  · simp only [processFlightModePos, e2, ratTruncZ_intCast]
    interval_cases N <;> decide
  · intro h3
    subst h3
    simp only [processFlightModePos, e3, ratTruncZ_intCast]
    decide

/-- C4 witness: with N = 3 configured modes, −1.0, 0.0 and 1.0 decode to
buckets 0, 1 and 2. -/
theorem C4_witness :
    ((1 : ℕ) ≤ 3 ∧ (3 : ℕ) ≤ FLIGHTMODEPOSITION_NUMELEM)
    ∧ processFlightModePos 3 (-1) = 0
    ∧ processFlightModePos 3 1 = 2
    ∧ processFlightModePos 3 0 = 1 :=
  ⟨⟨by decide, by decide⟩,
   (C4_flightMode_buckets 3 (by decide) (by decide)).2.1,
   (C4_flightMode_buckets 3 (by decide) (by decide)).2.2.1,
   (C4_flightMode_buckets 3 (by decide) (by decide)).2.2.2 rfl⟩

/-- C1 counterexample: with the Guidance alarm Critical and the state
machine in `ARM_STATE_ARMED`, `processArm` publishes Disarmed but leaves the
internal `armState` variable at `ARM_STATE_ARMED` — the claim's "the arming
state machine is Disarmed" is false on the code. -/
theorem C1_counterexample :
    (processArm cmd0 settings0 0 alarmsGuidanceCritical 0 0 armStArmed).armState
      ≠ ArmState.disarmed
    ∧ (processArm cmd0 settings0 0 alarmsGuidanceCritical 0 0 armStArmed).armState
      = ArmState.armed
    ∧ (processArm cmd0 settings0 0 alarmsGuidanceCritical 0 0 armStArmed).armed
      = ARMED_DISARMED := by
  refine ⟨?_, ?_, ?_⟩ <;> decide

/-- C1 (amended): whenever the guidance alarm is at Critical severity,
`processArm` publishes the Disarmed armed status on that same call and
returns immediately, bypassing all gesture and timer logic — the rest of the
state (including the internal `armState` variable and the gesture timer) is
left untouched, not reset to `Disarmed`. -/
theorem C1_forcedDisarm_amended (cmd : Cmd) (s : Settings) (armSwitch : ℤ)
    (alarms : Alarms) (fm t : ℕ) (st : ArmSt)
    (h : forcedDisArm alarms = true) :
    processArm cmd s armSwitch alarms fm t st = { st with armed := ARMED_DISARMED } := by
  simp [processArm, setArmedIfChanged, h]

/-- C1 witness: a guidance-critical cycle in the armed state publishes
Disarmed while keeping `armState = ARM_STATE_ARMED` and the timer value. -/
theorem C1_witness :
    forcedDisArm alarmsGuidanceCritical = true
    ∧ processArm cmdArmHold settings0 0 alarmsGuidanceCritical 0 7
        ⟨.armed, 5, ARMED_ARMED⟩ = ⟨ArmState.armed, 5, ARMED_DISARMED⟩ :=
  ⟨by decide,
   C1_forcedDisarm_amended cmdArmHold settings0 0 alarmsGuidanceCritical 0 7
     ⟨.armed, 5, ARMED_ARMED⟩ (by decide)⟩

/-- C6: with no forced disarm, a connected command, a stick-gesture arming
configuration and throttle not low, one `processArm` step moves
`DisarmingTimeout` and `DisarmingManual` back to `Armed` and `ArmingManual`
back to `Disarmed`, for every gesture level and timer value, touching
nothing else in the state. -/
theorem C6_throttle_raise (cmd : Cmd) (s : Settings) (armSwitch : ℤ) (alarms : Alarms)
    (fm t : ℕ) (st : ArmSt)
    (hforce : forcedDisArm alarms = false)
    (hconn : cmd.connected = true)
    (hstick : s.arming.isStickGesture = true)
    (hthr : ¬ (cmd.throttle < 0)) :
    ((st.armState = .disarmingTimeout ∨ st.armState = .disarmingManual) →
      processArm cmd s armSwitch alarms fm t st = { st with armState := .armed })
    ∧ (st.armState = .armingManual →
      processArm cmd s armSwitch alarms fm t st = { st with armState := .disarmed }) := by
  have hacc : s.arming.isAccessory = false := by
    cases h : s.arming <;> simp_all [Arming.isStickGesture, Arming.isAccessory]
  have hAD : ¬ (s.arming = .alwaysDisarmed) := by
    intro h
    rw [h] at hstick
    simp [Arming.isStickGesture] at hstick
  constructor
  · rintro (h | h) <;> simp [processArm, hforce, hacc, hAD, hconn, hthr, h]
  · intro h
    simp [processArm, hforce, hacc, hAD, hconn, hthr, h]

/-- C6 witness: from `DisarmingTimeout` with throttle at neutral (not low),
one step returns to `Armed` without touching the timer. -/
theorem C6_witness :
    (forcedDisArm alarmsOk = false ∧ cmd0.connected = true
      ∧ Arming.isStickGesture settings0.arming = true ∧ ¬ (cmd0.throttle < 0))
    ∧ processArm cmd0 settings0 0 alarmsOk 0 0 ⟨.disarmingTimeout, 3, ARMED_ARMED⟩
        = ⟨ArmState.armed, 3, ARMED_ARMED⟩ :=
  ⟨⟨by decide, rfl, by decide, by decide⟩,
   (C6_throttle_raise cmd0 settings0 0 alarmsOk 0 0 ⟨.disarmingTimeout, 3, ARMED_ARMED⟩
     (by decide) rfl (by decide) (by decide)).1 (Or.inl rfl)⟩

/-- One `processArm` step in `ArmingManual` with throttle low, no forced
disarm, the gesture held and the sequence time not yet exceeded: the state
stays `ArmingManual` with its timer, and only Arming is published. -/
theorem processArm_armingManual_hold (s : Settings) (cmd : Cmd) (armSwitch : ℤ)
    (alarms : Alarms) (fm t : ℕ) (st : ArmSt)
    (hAD : s.arming ≠ .alwaysDisarmed) (hAA : s.arming ≠ .alwaysArmed)
    (hst : st.armState = .armingManual)
    (hthr : cmd.throttle < 0)
    (hforce : forcedDisArm alarms = false)
    (hhold : armingInputLevel s cmd armSwitch ≤ -ARMED_THRESHOLD)
    (htime : ¬ (timeDifferenceMs st.armedDisarmStart t > s.armingSequenceTime)) :
    processArm cmd s armSwitch alarms fm t st = { st with armed := ARMED_ARMING } := by
  simp [processArm, setArmedIfChanged, hforce, hAD, hAA, hst, hthr, hhold, htime]

/-- One `processArm` step in `ArmingManual` with throttle low, no forced
disarm and the gesture released: the state returns to `Disarmed`. -/
theorem processArm_armingManual_release (s : Settings) (cmd : Cmd) (armSwitch : ℤ)
    (alarms : Alarms) (fm t : ℕ) (st : ArmSt)
    (hAD : s.arming ≠ .alwaysDisarmed) (hAA : s.arming ≠ .alwaysArmed)
    (hst : st.armState = .armingManual)
    (hthr : cmd.throttle < 0)
    (hforce : forcedDisArm alarms = false)
    (hrel : ¬ (armingInputLevel s cmd armSwitch ≤ -ARMED_THRESHOLD)) :
    processArm cmd s armSwitch alarms fm t st =
      { st with armState := .disarmed, armed := ARMED_ARMING } := by
  simp [processArm, setArmedIfChanged, hforce, hAD, hAA, hst, hthr, hrel]

/-- A run of gesture-holding steps, each inside the arming-sequence time,
keeps the machine in `ArmingManual` with its original timer. -/
theorem armRun_hold (s : Settings) (hAD : s.arming ≠ .alwaysDisarmed)
    (hAA : s.arming ≠ .alwaysArmed) :
    ∀ (l : List ArmIn) (st0 : ArmSt), st0.armState = .armingManual →
    (∀ i ∈ l, i.cmd.throttle < 0 ∧ forcedDisArm i.alarms = false ∧
      armingInputLevel s i.cmd i.armSwitch ≤ -ARMED_THRESHOLD ∧
      timeDifferenceMs st0.armedDisarmStart i.t < s.armingSequenceTime) →
    (armRun s l st0).armState = .armingManual
    ∧ (armRun s l st0).armedDisarmStart = st0.armedDisarmStart
  | [], _, hst, _ => ⟨hst, rfl⟩
  | i :: tl, st0, hst, hl => by
    obtain ⟨h1, h2, h3, h4⟩ := hl i (List.mem_cons_self i tl)
    have hstep := processArm_armingManual_hold s i.cmd i.armSwitch i.alarms i.flightMode
      i.t st0 hAD hAA hst h1 h2 h3 (by omega)
    have hrest := armRun_hold s hAD hAA tl { st0 with armed := ARMED_ARMING } hst
      (fun j hj => hl j (List.mem_cons_of_mem i hj))
    simp only [armRun, List.foldl_cons] at hrest ⊢
    rw [hstep]
    exact hrest

/-- C5: in any run of `processArm` steps with throttle low, no forced
disarm and a gesture arming configuration, while the arm gesture is held and
less than `ArmingSequenceTime` has elapsed since the sequence started, the
machine stays in `ArmingManual` (never `Armed`); releasing the gesture on
the next step returns it to `Disarmed`. -/
theorem C5_sustained_gesture (s : Settings) (l : List ArmIn) (st0 : ArmSt) (r : ArmIn)
    (hAD : s.arming ≠ .alwaysDisarmed) (hAA : s.arming ≠ .alwaysArmed)
    (hst : st0.armState = .armingManual)
    (hl : ∀ i ∈ l, i.cmd.throttle < 0 ∧ forcedDisArm i.alarms = false ∧
      armingInputLevel s i.cmd i.armSwitch ≤ -ARMED_THRESHOLD ∧
      timeDifferenceMs st0.armedDisarmStart i.t < s.armingSequenceTime)
    (hr : r.cmd.throttle < 0 ∧ forcedDisArm r.alarms = false ∧
      ¬ (armingInputLevel s r.cmd r.armSwitch ≤ -ARMED_THRESHOLD)) :
    (armRun s l st0).armState = .armingManual
    ∧ (armRun s l st0).armedDisarmStart = st0.armedDisarmStart
    ∧ (processArm r.cmd s r.armSwitch r.alarms r.flightMode r.t (armRun s l st0)).armState
      = .disarmed := by
  obtain ⟨hA, hB⟩ := armRun_hold s hAD hAA l st0 hst hl
  refine ⟨hA, hB, ?_⟩
  rw [processArm_armingManual_release s r.cmd r.armSwitch r.alarms r.flightMode r.t
    (armRun s l st0) hAD hAA hA hr.1 hr.2.1 hr.2.2]

/-- C5 witness: holding roll-left for 100 ms then 200 ms of a 1000 ms
sequence keeps the machine in `ArmingManual`; releasing at 300 ms disarms. -/
theorem C5_witness :
    (armRun settings0 [armInHold1, armInHold2] armStArmingManual).armState = .armingManual
    ∧ (armRun settings0 [armInHold1, armInHold2] armStArmingManual).armedDisarmStart = 100
    ∧ (processArm armInRelease.cmd settings0 armInRelease.armSwitch armInRelease.alarms
        armInRelease.flightMode armInRelease.t
        (armRun settings0 [armInHold1, armInHold2] armStArmingManual)).armState
      = .disarmed :=
  C5_sustained_gesture settings0 [armInHold1, armInHold2] armStArmingManual armInRelease
    (by decide) (by decide) rfl
    (by
      intro i hi
      fin_cases hi <;> exact ⟨by decide, by decide, by decide, by decide⟩)
    ⟨by decide, by decide, by decide⟩

/-- C7: on any transmitter-path cycle whose configuration consistency check
fails, the ManualControl alarm is set to Critical, the command is published
with Connected false, the armed status is immediately forced to Disarmed,
and the rest of the cycle — hysteresis counters, flight-mode state, the
arming state machine, and the command dispatch — is skipped. -/
theorem C7_config_inconsistency (env : CycleEnv) (s : Settings) (t : ℕ) (st : CycleSt)
    (h : configCheckFails s (readChannels env s) = true) :
    (cycleStep env s t st).alarm = .set ALARM_CRITICAL
    ∧ (cycleStep env s t st).published
        = some { st.cmd with channel := readChannels env s, connected := false }
    ∧ (cycleStep env s t st).st.arm.armed = ARMED_DISARMED
    ∧ (cycleStep env s t st).st.arm.armState = st.arm.armState
    ∧ (cycleStep env s t st).dispatchReached = false
    ∧ (cycleStep env s t st).st.cc = st.cc
    ∧ (cycleStep env s t st).st.dc = st.dc
    ∧ (cycleStep env s t st).st.fsFlightMode = st.fsFlightMode := by
  refine ⟨?_, ?_, ?_, ?_, ?_, ?_, ?_, ?_⟩ <;>
    simp [cycleStep, setArmedIfChanged, h]

/-- C7 witness: a configuration with `FlightModeNumber = 0` fails the check
and the cycle raises Critical, disarms and skips dispatch. -/
theorem C7_witness :
    configCheckFails settingsBad (readChannels env0 settingsBad) = true
    ∧ (cycleStep env0 settingsBad 0 cycleSt0).alarm = .set ALARM_CRITICAL
    ∧ (cycleStep env0 settingsBad 0 cycleSt0).st.arm.armed = ARMED_DISARMED
    ∧ (cycleStep env0 settingsBad 0 cycleSt0).dispatchReached = false :=
  ⟨by decide,
   (C7_config_inconsistency env0 settingsBad 0 cycleSt0 (by decide)).1,
   (C7_config_inconsistency env0 settingsBad 0 cycleSt0 (by decide)).2.2.1,
   (C7_config_inconsistency env0 settingsBad 0 cycleSt0 (by decide)).2.2.2.2.1⟩

/-- C8: on any transmitter-path cycle that passes the configuration check
and whose post-hysteresis connection status is Disconnected, the published
command has Roll, Pitch, Yaw and Collective forced to 0 and Throttle forced
to −1, and when `FailsafeBehavior` is configured (not None) the flight mode
is forced to `FlightModePosition[FailsafeBehavior − 1]` and the published
switch position to `FailsafeBehavior − 1`. -/
theorem C8_failsafe (env : CycleEnv) (s : Settings) (t : ℕ) (st : CycleSt)
    (hchk : configCheckFails s (readChannels env s) = false)
    (hdisc : (hysteresisStep (cycleValid env s) ⟨st.cmd.connected, st.cc, st.dc⟩).connected
      = false) :
    ((cycleStep env s t st).published.map Cmd.roll) = some 0
    ∧ ((cycleStep env s t st).published.map Cmd.pitch) = some 0
    ∧ ((cycleStep env s t st).published.map Cmd.yaw) = some 0
    ∧ ((cycleStep env s t st).published.map Cmd.collective) = some 0
    ∧ ((cycleStep env s t st).published.map Cmd.throttle) = some (-1)
    ∧ (s.failsafeBehavior ≠ FAILSAFEBEHAVIOR_NONE →
        (cycleStep env s t st).st.fsFlightMode
          = s.flightModePosition (s.failsafeBehavior - 1)
        ∧ ((cycleStep env s t st).published.map Cmd.flightModeSwitchPosition)
          = some (s.failsafeBehavior - 1)) := by
  refine ⟨?_, ?_, ?_, ?_, ?_, ?_⟩ <;>
    [skip; skip; skip; skip; skip; intro hfs] <;>
    simp [cycleStep, hchk, hdisc] <;>
    split_ifs <;>
    simp_all

/-- C8 witness: a disconnected cycle under the failsafe-slot-1 configuration
publishes zero sticks, minimum throttle, and forces flight-mode slot 0. -/
theorem C8_witness :
    (configCheckFails settings0 (readChannels env0 settings0) = false
      ∧ (hysteresisStep (cycleValid env0 settings0)
          ⟨cycleSt0.cmd.connected, cycleSt0.cc, cycleSt0.dc⟩).connected = false
      ∧ settings0.failsafeBehavior ≠ FAILSAFEBEHAVIOR_NONE)
    ∧ ((cycleStep env0 settings0 0 cycleSt0).published.map Cmd.throttle) = some (-1)
    ∧ ((cycleStep env0 settings0 0 cycleSt0).published.map Cmd.roll) = some 0
    ∧ (cycleStep env0 settings0 0 cycleSt0).st.fsFlightMode
        = settings0.flightModePosition 0 :=
  ⟨⟨by decide, by decide, by decide⟩,
   (C8_failsafe env0 settings0 0 cycleSt0 (by decide) (by decide)).2.2.2.2.1,
   (C8_failsafe env0 settings0 0 cycleSt0 (by decide) (by decide)).1,
   ((C8_failsafe env0 settings0 0 cycleSt0 (by decide) (by decide)).2.2.2.2.2
     (by decide)).1⟩

/-- The bounded advance loop of `updateRcvrActivity`: if some bound group is
reachable within `fuel` increments, the loop stops at the first one (in
cyclic order), samples its channels as the new baseline, and bumps the
sample counter. -/
theorem rcvrAdvance_found (env : RcvrEnv) (fuel : ℕ) :
    ∀ fsm : RcvrFsm, fsm.group < CHANNELGROUPS_NONE →
    (∃ j, 1 ≤ j ∧ j ≤ fuel ∧ env.bound ((fsm.group + j) % CHANNELGROUPS_NONE) = true) →
    ∃ k, 1 ≤ k ∧ k ≤ fuel
      ∧ env.bound ((fsm.group + k) % CHANNELGROUPS_NONE) = true
      ∧ (∀ j, 1 ≤ j → j < k → env.bound ((fsm.group + j) % CHANNELGROUPS_NONE) = false)
      ∧ rcvrAdvance env fuel fsm =
          { group := (fsm.group + k) % CHANNELGROUPS_NONE,
            prev := updateRcvrActivitySample env ((fsm.group + k) % CHANNELGROUPS_NONE),
            sampleCount := fsm.sampleCount + 1 } := by
  induction fuel with
  | zero =>
    rintro fsm _ ⟨j, hj1, hj2, _⟩
    omega
  | succ fuel ih =>
    rintro fsm hg ⟨j, hj1, hj2, hjb⟩
    simp only [CHANNELGROUPS_NONE] at hg hjb ⊢
    have hg1 : (if fsm.group + 1 ≥ 7 then 0 else fsm.group + 1) = (fsm.group + 1) % 7 := by
      split_ifs <;> omega
    have hkey : ∀ m, ((fsm.group + 1) % 7 + m) % 7 = (fsm.group + (m + 1)) % 7 := by
      intro m
      rw [Nat.mod_add_mod]
      congr 1
      omega
    by_cases hb : env.bound ((fsm.group + 1) % 7) = true
    · refine ⟨1, le_refl 1, by omega, hb, fun j' h1 h2 => by omega, ?_⟩
      simp only [rcvrAdvance, CHANNELGROUPS_NONE, hg1, hb, if_true]
    · have hb' : env.bound ((fsm.group + 1) % 7) = false := by
        cases h : env.bound ((fsm.group + 1) % 7)
        · rfl
        · exact absurd h hb
      have hjne : j ≠ 1 := by
        intro h
        subst h
        rw [hjb] at hb'
        cases hb'
      have hgg : ({ fsm with group := (fsm.group + 1) % 7 } : RcvrFsm).group
          < CHANNELGROUPS_NONE := by
        simp only [CHANNELGROUPS_NONE]
        exact Nat.mod_lt _ (by omega)
      have hexrec : env.bound ((((fsm.group + 1) % 7) + (j - 1)) % 7) = true := by
        rw [hkey (j - 1)]
        have e : j - 1 + 1 = j := by omega
        rw [e]
        exact hjb
      obtain ⟨k', hk1, hk2, hkb, hkmin, hkeq⟩ :=
        ih { fsm with group := (fsm.group + 1) % 7 } hgg
          ⟨j - 1, by omega, by omega, hexrec⟩
      simp only [CHANNELGROUPS_NONE] at hkb hkmin hkeq
      refine ⟨k' + 1, by omega, by omega, ?_, ?_, ?_⟩
      · rw [← hkey k']
        exact hkb
      · intro j' hj'1 hj'2
        by_cases hj'e : j' = 1
        · subst hj'e
          exact hb'
        · have := hkmin (j' - 1) (by omega) (by omega)
          rw [hkey (j' - 1)] at this
          have e : j' - 1 + 1 = j' := by omega
          rw [e] at this
          exact this
      · simp only [rcvrAdvance, CHANNELGROUPS_NONE, hg1, hb', if_false, Bool.false_eq_true]
        rw [hkeq]
        rw [hkey k']

/-- C9: on a bound group, a step with no baseline samples every channel of
the current group into the baseline, marks the baseline taken, does not
advance the group and reports no activity; a step with a baseline reports
activity iff some channel's absolute delta from its baseline exceeds 10
units, then advances to the next bound group in cyclic order (wrapping) and
immediately resamples that group's baseline. -/
theorem C9_rcvr_activity (env : RcvrEnv) (fsm : RcvrFsm)
    (hb : env.bound fsm.group = true) (hg : fsm.group < CHANNELGROUPS_NONE) :
    (fsm.sampleCount = 0 →
      updateRcvrActivity env fsm
        = (false, { fsm with prev := updateRcvrActivitySample env fsm.group,
                             sampleCount := 1 }))
    ∧ (fsm.sampleCount ≠ 0 →
        ((updateRcvrActivity env fsm).1 = true ↔
          ∃ i < RCVR_CHANNELS_PER_GROUP,
            rcvrDelta (env.read fsm.group (i + 1) % 65536) (fsm.prev.getD i 0)
              > RCVR_MIN_RANGE)
        ∧ ∃ k, 1 ≤ k ∧ k ≤ CHANNELGROUPS_NONE
            ∧ env.bound ((fsm.group + k) % CHANNELGROUPS_NONE) = true
            ∧ (∀ j, 1 ≤ j → j < k →
                env.bound ((fsm.group + j) % CHANNELGROUPS_NONE) = false)
            ∧ (updateRcvrActivity env fsm).2 =
                { group := (fsm.group + k) % CHANNELGROUPS_NONE,
                  prev := updateRcvrActivitySample env
                    ((fsm.group + k) % CHANNELGROUPS_NONE),
                  sampleCount := 1 }) := by
  constructor
  · intro h0
    simp [updateRcvrActivity, hb, h0, not_le.mpr hg]
  · intro hne
    have hred : updateRcvrActivity env fsm =
        (updateRcvrActivityCompare env fsm,
         rcvrAdvance env CHANNELGROUPS_NONE { fsm with sampleCount := 0 }) := by
      simp [updateRcvrActivity, hb, hne, not_le.mpr hg]
    constructor
    · rw [hred]
      simp [updateRcvrActivityCompare, List.any_eq_true, List.mem_range]
    · have hex : ∃ j, 1 ≤ j ∧ j ≤ CHANNELGROUPS_NONE
          ∧ env.bound ((({ fsm with sampleCount := 0 } : RcvrFsm).group + j)
              % CHANNELGROUPS_NONE) = true := by
        refine ⟨CHANNELGROUPS_NONE, by omega, le_refl _, ?_⟩
        have e : (fsm.group + CHANNELGROUPS_NONE) % CHANNELGROUPS_NONE = fsm.group := by
          simp only [CHANNELGROUPS_NONE] at hg ⊢
          omega
        rw [e]
        exact hb
      obtain ⟨k, hk1, hk2, hkb, hkmin, hkeq⟩ :=
        rcvrAdvance_found env CHANNELGROUPS_NONE { fsm with sampleCount := 0 } hg hex
      exact ⟨k, hk1, hk2, hkb, hkmin, by rw [hred]; exact hkeq⟩

/-- C9 witness: on bound group 2, a fresh FSM samples a baseline without
advancing, and an FSM holding a 1500 µs baseline sees the 1600 µs reading on
channel 1, reports activity, and wraps back around to group 2 (the only
bound group) with a fresh baseline. -/
theorem C9_witness :
    (envAct.bound fsmBase.group = true ∧ fsmBase.group < CHANNELGROUPS_NONE
      ∧ fsmFresh.sampleCount = 0 ∧ fsmBase.sampleCount ≠ 0)
    ∧ updateRcvrActivity envAct fsmFresh
        = (false, { fsmFresh with prev := updateRcvrActivitySample envAct fsmFresh.group,
                                  sampleCount := 1 })
    ∧ (((updateRcvrActivity envAct fsmBase).1 = true ↔
          ∃ i < RCVR_CHANNELS_PER_GROUP,
            rcvrDelta (envAct.read fsmBase.group (i + 1) % 65536) (fsmBase.prev.getD i 0)
              > RCVR_MIN_RANGE)
        ∧ ∃ k, 1 ≤ k ∧ k ≤ CHANNELGROUPS_NONE
            ∧ envAct.bound ((fsmBase.group + k) % CHANNELGROUPS_NONE) = true
            ∧ (∀ j, 1 ≤ j → j < k →
                envAct.bound ((fsmBase.group + j) % CHANNELGROUPS_NONE) = false)
            ∧ (updateRcvrActivity envAct fsmBase).2 =
                { group := (fsmBase.group + k) % CHANNELGROUPS_NONE,
                  prev := updateRcvrActivitySample envAct
                    ((fsmBase.group + k) % CHANNELGROUPS_NONE),
                  sampleCount := 1 }) :=
  ⟨⟨by decide, by decide, by decide, by decide⟩,
   (C9_rcvr_activity envAct fsmFresh (by decide) (by decide)).1 (by decide),
   (C9_rcvr_activity envAct fsmBase (by decide) (by decide)).2 (by decide)⟩

end ManualControl
